import Mathlib

/-!
A shallow embedding of `install_ollama_openwebui.py`, an installer script
that provisions a host with Ollama and OpenWebUI.

The outside world (results of shell commands, downloads, file existence,
platform probes) is modelled by an oracle `Env`.  Each Python function of
the script becomes a Lean function from the oracle to a result together
with a trace of observable events (shell command invocations, downloads,
file removals, selected log lines).  Shell command results are a function
of the command text and the attempt index, so retried attempts can differ.
Informational log lines are elided from traces; warning and error log
lines that the script's error handling produces are kept.
-/

/-- The error information carried by a `subprocess.CalledProcessError`. -/
structure CmdError where
  code : Nat
  output : String
  stderr : String
deriving DecidableEq, Repr

/-- Result of one attempt at running a shell command. -/
inductive CmdResult where
  | ok (stdout : String)
  | err (e : CmdError)
deriving DecidableEq, Repr

/-- Python exceptions that can propagate out of the modelled functions. -/
inductive PyExc where
  | calledProcessError (e : CmdError)
  | urlError (url : String)
  | valueError (s : String)
deriving DecidableEq, Repr

/-- Observable events of a run of the script. -/
inductive Event where
  | cmd (line : String) (ok : Bool)
  | download (url : String) (dest : String)
  | removeFile (path : String)
  | mkdir (path : String)
  | writeFile (path : String)
  | print (msg : String)
deriving DecidableEq, Repr

/-- Result of a helper function of the script: normal return, `sys.exit`,
or a propagating Python exception.  (No helper contains `os.execv`.) -/
inductive Res (α : Type) where
  | ret (a : α)
  | exited (code : Nat)
  | raised (e : PyExc)
deriving DecidableEq, Repr

/-- Result of `main`: in addition to the helpers' outcomes, `main` can
replace the process image via `os.execv`. -/
inductive Outcome where
  | done
  | exited (code : Nat)
  | raised (e : PyExc)
  | execed (path : String) (argv : List String)
deriving DecidableEq, Repr

/-- The oracle for the outside world.  `run c a` is the result of the
`a`-th attempt (1-based) at running shell command `c`; `downloadOk u`
tells whether `urllib.request.urlretrieve` succeeds on URL `u`;
`pathExists` models `os.path.exists`; `whichBrew` and `whichNvidiaSmi`
model `shutil.which`; `machineArm` models
`platform.machine().startswith("arm")`; `tempDir` is the directory
returned by `tempfile.mkdtemp`; `user` is `getpass.getuser()`. -/
structure Env where
  run : String → Nat → CmdResult
  downloadOk : String → Bool
  pathExists : String → Bool
  whichBrew : Bool
  whichNvidiaSmi : Bool
  machineArm : Bool
  tempDir : String
  user : String

/-- The retry loop inside `run_command`: try attempts `attempt`,
`attempt+1`, ... while fuel lasts; the last failure is raised. -/
def runAttempts (env : Env) (line : String) (attempt : Nat) : Nat → Except CmdError String
  | 0 => .error ⟨1, "", ""⟩
  | n + 1 =>
    match env.run line attempt with
    | .ok out => .ok out
    | .err e => if n = 0 then .error e else runAttempts env line (attempt + 1) n

/-- Model of `run_command(command, error_message, retries=...)`: runs a shell
command with retries; returns the stdout on success and the
`CalledProcessError` data after the final failed attempt.  The trace
records one event per call, carrying the command line and whether the
call finally succeeded.  (`error_message` only affects logging.) -/
def run_command (env : Env) (line _errorMessage : String) (retries : Nat) :
    Except CmdError String × List Event :=
  match runAttempts env line 1 retries with
  | .ok out => (.ok out, [.cmd line true])
  | .error e => (.error e, [.cmd line false])

/-- Sequencing of traced fallible steps: exceptions and exits
short-circuit, traces accumulate. -/
def seqR {α β : Type} (x : Res α × List Event) (k : α → Res β × List Event) :
    Res β × List Event :=
  match x with
  | (.ret a, e) => ((k a).1, e ++ (k a).2)
  | (.exited c, e) => (.exited c, e)
  | (.raised ex, e) => (.raised ex, e)

/-- A `try: run_command(...) except CalledProcessError: print(warning)`
block whose result value is discarded: always continues, logging the
warning on failure. -/
def tryAdvisory (env : Env) (line errorMessage : String) (retries : Nat)
    (warning : String) : List Event :=
  match run_command env line errorMessage retries with
  | (.ok _, e) => e
  | (.error _, e) => e ++ [.print warning]

/-- A `try:` block running two commands in sequence with a single
`except CalledProcessError: print(warning)`: the second command only
runs if the first succeeded. -/
def tryAdvisory2 (env : Env) (l1 m1 l2 m2 : String) (retries : Nat)
    (warning : String) : List Event :=
  match run_command env l1 m1 retries with
  | (.ok _, e1) =>
    match run_command env l2 m2 retries with
    | (.ok _, e2) => e1 ++ e2
    | (.error _, e2) => e1 ++ e2 ++ [.print warning]
  | (.error _, e1) => e1 ++ [.print warning]

/-- Whether the first character list is a prefix of the second. -/
def listIsPre : List Char → List Char → Bool
  | [], _ => true
  | _ :: _, [] => false
  | a :: as, b :: bs => a == b && listIsPre as bs

/-- Whether the first character list occurs inside the second. -/
def listContainsSub (needle : List Char) : List Char → Bool
  | [] => listIsPre needle []
  | b :: bs => listIsPre needle (b :: bs) || listContainsSub needle bs

/-- Python's substring test `needle in hay`. -/
def pyIn (needle hay : String) : Bool := listContainsSub needle.toList hay.toList

/-- The whitespace characters Python's `str.strip()` removes. -/
def pyWhitespace (c : Char) : Bool :=
  c == ' ' || c == '\t' || c == '\n' || c == '\r' || c == '\x0b' || c == '\x0c'

/-- Python's `str.strip()` on a character list. -/
def pyStripList (cs : List Char) : List Char :=
  ((cs.dropWhile pyWhitespace).reverse.dropWhile pyWhitespace).reverse

/-- Python's `str.split(".")` on a character list. -/
def splitOnDot : List Char → List (List Char)
  | [] => [[]]
  | c :: cs =>
    if c == '.' then [] :: splitOnDot cs
    else
      match splitOnDot cs with
      | [] => [[c]]
      | g :: gs => (c :: g) :: gs

/-- Value of a nonempty all-digit character list, `none` otherwise. -/
def digitsVal (cs : List Char) : Option Nat :=
  if cs.isEmpty then none
  else
    List.foldl
      (fun acc c => acc.bind (fun n => if c.isDigit then some (n * 10 + (c.toNat - 48)) else none))
      (some 0) cs

/-- Python's `int(s)` on a string: strips surrounding whitespace, allows
one optional sign, then requires a nonempty run of digits; any other
character raises `ValueError`, modelled as `none`. -/
def pyInt (s : String) : Option Int :=
  match pyStripList s.toList with
  | '-' :: rest => (digitsVal rest).map (fun n => -(n : Int))
  | '+' :: rest => (digitsVal rest).map (fun n => (n : Int))
  | cs => (digitsVal cs).map (fun n => (n : Int))

/-- Python's `<` on int tuples (lexicographic; a strict prefix is
smaller). -/
def pyTupleLt : List Int → List Int → Bool
  | [], [] => false
  | [], _ :: _ => true
  | _ :: _, [] => false
  | a :: as, b :: bs => a < b || (a == b && pyTupleLt as bs)

/-- Python's `>=` on int tuples. -/
def pyTupleGe (xs ys : List Int) : Bool := ! pyTupleLt xs ys

/-- Lexicographic (character-by-character) order on character lists. -/
def listLexLt : List Char → List Char → Bool
  | [], [] => false
  | [], _ :: _ => true
  | _ :: _, [] => false
  | a :: as, b :: bs => a < b || (a == b && listLexLt as bs)

/-- Lexicographic string comparison, the comparison the spec rules out
for version checks. -/
def lexStringLt (a b : String) : Bool := listLexLt a.toList b.toList

/-- Model of `check_system()`: returns the platform tag if it is Linux or Darwin,
otherwise prints a diagnostic and exits with status 1. -/
def check_system (system : String) : Res String × List Event :=
  if ¬ (system ∈ (["Linux", "Darwin"] : List String)) then
    (.exited 1, [.print "Error: This installer supports only macOS and Linux."])
  else
    (.ret system, [])

/-- The Homebrew binary directory, by machine architecture. -/
def brewPath (env : Env) : String :=
  if env.machineArm then "/opt/homebrew/bin" else "/usr/local/bin"

/-- The Homebrew bootstrap command. -/
def homebrewInstallCmd : String :=
  String.append "/bin/bash -c \"$(curl -fsSL "
    "https://raw.githubusercontent.com/Homebrew/install/HEAD/install.sh)\""

/-- The ownership fix-up command, parameterized by the Homebrew binary
directory. -/
def chownCmd (bp : String) : String :=
  "sudo chown -R $(whoami):admin " ++ bp ++ " /opt/homebrew /opt/homebrew/Cellar"

/-- The shell-profile append persisting a PATH addition. -/
def echoPathCmd (bp : String) : String :=
  "echo 'export PATH=" ++ bp ++ ":$PATH' >> ~/.zshrc"

/-- Model of `install_homebrew()`: bootstraps Homebrew when `brew` is absent
(bootstrap failure propagates), then runs the advisory hygiene steps —
ownership fix-up, cache cleanup plus state reset, health check,
self-update, and the PATH append to `~/.zshrc` — each wrapped in a
`try/except` that logs a warning and continues. -/
def install_homebrew (env : Env) : Res Unit × List Event :=
  let bp := brewPath env
  match (if env.whichBrew then ((.ok "" : Except CmdError String), ([] : List Event))
         else run_command env homebrewInstallCmd "Failed to install Homebrew" 2) with
  | (.error e, evs) => (.raised (.calledProcessError e), evs)
  | (.ok _, evs) =>
    let e1 := tryAdvisory env (chownCmd bp) "Failed to fix Homebrew permissions" 2
      "Warning: Failed to fix Homebrew permissions, continuing..."
    let e2 := tryAdvisory2 env "brew cleanup" "Failed to clean Homebrew"
      "brew update-reset" "Failed to reset Homebrew" 2
      "Warning: Failed to clean or reset Homebrew, continuing..."
    let e3 := tryAdvisory env "brew doctor" "Homebrew health check failed" 2
      "Warning: brew doctor failed, continuing..."
    let e4 := tryAdvisory env "brew update" "Failed to update Homebrew" 2
      "Warning: Failed to update Homebrew, continuing..."
    let e5 := tryAdvisory env (echoPathCmd bp) "Failed to update PATH" 1
      "Warning: Failed to update PATH in ~/.zshrc, continuing..."
    (.ret (), evs ++ e1 ++ e2 ++ e3 ++ e4 ++ e5)

/-- Model of `check_python_version()`: whether the running interpreter is 3.11. -/
def check_python_version (pyMajor pyMinor : Nat) : Bool :=
  pyMajor == 3 && pyMinor == 11

/-- The expected interpreter location per platform. -/
def pythonBinFor (system : String) : String :=
  if system = "Darwin" then "/opt/homebrew/bin/python3.11" else "python3.11"

/-- The `--version` probe for an interpreter binary. -/
def versionCmd (bin : String) : String := bin ++ " --version"

/-- The apt command installing Python 3.11 on Linux. -/
def linuxPythonInstallCmd : String :=
  String.append
    (String.append "sudo apt-get update && sudo apt-get install -y software-properties-common && "
      "sudo add-apt-repository -y ppa:deadsnakes/ppa && sudo apt-get update && ")
    "sudo apt-get install -y python3.11 python3.11-dev python3.11-venv"

/-- The fixed python.org installer-package URL. -/
def pythonPkgUrl : String :=
  "https://www.python.org/ftp/python/3.11.9/python-3.11.9-macos11.pkg"

/-- The macOS framework interpreter path the pkg installer provides. -/
def frameworkPythonBin : String :=
  "/Library/Frameworks/Python.framework/Versions/3.11/bin/python3.11"

/-- The final `--version` re-verification at the end of
`install_python`: success returns the binary path, failure prints an
error and exits 1. -/
def finalVerify (env : Env) (bin : String) : Res String × List Event :=
  match run_command env (versionCmd bin) "Python 3.11 final verification failed" 1 with
  | (.ok _, e) => (.ret bin, e)
  | (.error _, e) =>
    (.exited 1, e ++ [.print "Error: Python 3.11 installation failed or not found in PATH."])

/-- The inner `try` of the Darwin branch of `install_python`: unlink the
conflicting default, check whether `python@3.11` is already installed,
install it if not, force-link it, and verify the linked binary; any
`CalledProcessError` in the block (including the one raised by hand when
the binary is missing) selects the python.org fallback (`.inr ()`). -/
def darwinBrewInner (env : Env) : Sum String Unit × List Event :=
  let fallbackMsg := "Homebrew installation failed, falling back to Python.org installer..."
  match run_command env "brew unlink python@3.13 || true" "Failed to unlink Python 3.13" 1 with
  | (.error _, e) => (.inr (), e ++ [.print fallbackMsg])
  | (.ok _, e1) =>
    match run_command env "brew list python@3.11 || true" "Failed to check installed packages" 1 with
    | (.error _, e) => (.inr (), e1 ++ e ++ [.print fallbackMsg])
    | (.ok brewList, e2) =>
      let e12 := e1 ++ e2
      match (if pyIn "python@3.11" brewList then ((.ok "" : Except CmdError String), ([] : List Event))
             else run_command env "brew install python@3.11" "Failed to install Python 3.11 via Homebrew" 2) with
      | (.error _, e) => (.inr (), e12 ++ e ++ [.print fallbackMsg])
      | (.ok _, e3) =>
        match run_command env "brew link --force python@3.11" "Failed to link Python 3.11" 2 with
        | (.error _, e) => (.inr (), e12 ++ e3 ++ e ++ [.print fallbackMsg])
        | (.ok _, e4) =>
          let e := e12 ++ e3 ++ e4
          if env.pathExists "/opt/homebrew/bin/python3.11" then
            match run_command env (versionCmd "/opt/homebrew/bin/python3.11")
                "Python 3.11 verification failed after Homebrew install" 1 with
            | (.ok _, e5) => (.inl "/opt/homebrew/bin/python3.11", e ++ e5)
            | (.error _, e5) => (.inr (), e ++ e5 ++ [.print fallbackMsg])
          else
            (.inr (), e ++ [.print fallbackMsg])

/-- The outer `try` of the Darwin branch of `install_python`: set up
Homebrew and run the inner attempt; any exception from the Homebrew
setup selects the python.org fallback. -/
def darwinBrewPhase (env : Env) : Sum String Unit × List Event :=
  match install_homebrew env with
  | (.ret _, e1) =>
    match darwinBrewInner env with
    | (r, e2) => (r, e1 ++ e2)
  | (_, e1) =>
    (.inr (), e1 ++ [.print "Homebrew setup failed, falling back to Python.org installer..."])

/-- The python.org installer-package fallback: download the pkg into a
fresh temporary directory, run the installer with retries, remove the
pkg in a `finally` (so also when the installer failed, in which case the
`CalledProcessError` then propagates), persist the framework bin
directory on the PATH, and fall through to the final verification. -/
def darwinPkgPhase (env : Env) : Res String × List Event :=
  let pkgPath := env.tempDir ++ "/python-3.11.9-macos11.pkg"
  if env.downloadOk pythonPkgUrl then
    let acc := [Event.download pythonPkgUrl pkgPath]
    match run_command env ("sudo installer -pkg " ++ pkgPath ++ " -target /")
        "Failed to install Python 3.11 from package" 2 with
    | (.error er, e) => (.raised (.calledProcessError er), acc ++ e ++ [.removeFile pkgPath])
    | (.ok _, e) =>
      let acc := acc ++ e ++ [.removeFile pkgPath]
      let e2 := tryAdvisory env (echoPathCmd "/Library/Frameworks/Python.framework/Versions/3.11/bin")
        "Failed to update PATH for Python 3.11" 1
        "Warning: Failed to update PATH in ~/.zshrc, continuing..."
      match finalVerify env frameworkPythonBin with
      | (r, e3) => (r, acc ++ e2 ++ e3)
  else (.raised (.urlError pythonPkgUrl), [])

/-- The `Installing Python 3.11...` part of `install_python`, reached
when the fast-path probe did not report 3.11. -/
def installPythonFresh (env : Env) (system : String) : Res String × List Event :=
  if system = "Linux" then
    match run_command env linuxPythonInstallCmd "Failed to install Python 3.11 on Linux" 2 with
    | (.ok _, e) =>
      match finalVerify env "python3.11" with
      | (r, e2) => (r, e ++ e2)
    | (.error _, e) =>
      (.exited 1, e ++ [.print "Error: Failed to install Python 3.11 on Linux."])
  else if system = "Darwin" then
    match darwinBrewPhase env with
    | (.inl bin, e) => (.ret bin, e)
    | (.inr _, e) =>
      match darwinPkgPhase env with
      | (r, e2) => (r, e ++ e2)
  else
    finalVerify env (pythonBinFor system)

/-- Model of `install_python(system)`: fast-path `--version` probe of the
expected binary, returning its path when the output mentions 3.11;
otherwise the platform installation strategies followed by the final
verification. -/
def install_python (env : Env) (system : String) : Res String × List Event :=
  match run_command env (versionCmd (pythonBinFor system)) "Python 3.11 check failed" 1 with
  | (.ok out, e0) =>
    if pyIn "3.11" out then (.ret (pythonBinFor system), e0)
    else
      match installPythonFresh env system with
      | (r, e) => (r, e0 ++ e)
  | (.error _, e0) =>
    match installPythonFresh env system with
    | (r, e) => (r, e0 ++ e)

/-- The dot-separated numeric components of the Node.js version output:
Python's `tuple(map(int, node_version.strip().lstrip("v").split(".")))`,
where an unparsable component raises `ValueError` (`none`). -/
def nodeVersionParts (out : String) : Option (List Int) :=
  (splitOnDot ((pyStripList out.toList).dropWhile (fun c => c == 'v'))).mapM
    (fun cs => pyInt cs.asString)

/-- The Node.js minimum version tuple `(20, 10, 0)`. -/
def nodeMinVersion : List Int := [20, 10, 0]

/-- Whether a Node.js `--version` output passes the minimum-version
check of `install_node` (`none` models the unguarded `int()` raising). -/
def nodeVersionOk (out : String) : Option Bool :=
  (nodeVersionParts out).map (fun parts => pyTupleGe parts nodeMinVersion)

/-- The nodesource-based install command on Linux. -/
def linuxNodeInstallCmd : String :=
  String.append "curl -fsSL https://deb.nodesource.com/setup_20.x | sudo -E bash - && "
    "sudo apt-get install -y nodejs"

/-- The `Installing Node.js...` part of `install_node`: package-manager
install on Linux; on Darwin, Homebrew install, force-link with a manual
symlink fallback, and the PATH append to `~/.zshrc` (failures of the
non-advisory commands propagate). -/
def installNodeFresh (env : Env) (system : String) : Res Unit × List Event :=
  if system = "Linux" then
    match run_command env linuxNodeInstallCmd "Failed to install Node.js on Linux" 2 with
    | (.ok _, e) => (.ret (), e)
    | (.error er, e) => (.raised (.calledProcessError er), e)
  else if system = "Darwin" then
    seqR (install_homebrew env) (fun _ =>
      match run_command env "brew install node@20 || true" "Failed to install Node.js on macOS" 2 with
      | (.error er, e) => (.raised (.calledProcessError er), e)
      | (.ok _, e1) =>
        let linkPart :=
          match run_command env "brew link --overwrite --force node@20" "Failed to link Node.js" 1 with
          | (.ok _, e2) => ((.ret () : Res Unit), e2)
          | (.error _, e2) =>
            let e2 := e2 ++
              [Event.print "Warning: Failed to force-link node@20, attempting manual symlink..."]
            let nodePart :=
              if env.pathExists "/opt/homebrew/opt/node@20/bin/node" then
                match run_command env
                    "sudo ln -sf /opt/homebrew/opt/node@20/bin/node /opt/homebrew/bin/node"
                    "Failed to symlink node binary" 1 with
                | (.ok _, e3) => ((.ret () : Res Unit), e3)
                | (.error er, e3) => ((.raised (.calledProcessError er) : Res Unit), e3)
              else ((.ret () : Res Unit), [])
            seqR (nodePart.1, e2 ++ nodePart.2) (fun _ =>
              if env.pathExists "/opt/homebrew/opt/node@20/bin/npm" then
                match run_command env
                    "sudo ln -sf /opt/homebrew/opt/node@20/bin/npm /opt/homebrew/bin/npm"
                    "Failed to symlink npm binary" 1 with
                | (.ok _, e4) => ((.ret () : Res Unit), e4)
                | (.error er, e4) => ((.raised (.calledProcessError er) : Res Unit), e4)
              else ((.ret () : Res Unit), []))
        seqR (linkPart.1, e1 ++ linkPart.2) (fun _ =>
          match run_command env (echoPathCmd "/opt/homebrew/bin") "Failed to export Homebrew path" 1 with
          | (.ok _, e5) => ((.ret () : Res Unit), e5)
          | (.error er, e5) => ((.raised (.calledProcessError er) : Res Unit), e5)))
  else (.ret (), [])

/-- Model of `install_node(system)`: probes `node --version`; a reported version
at or above the minimum returns at once; a failed probe or a low version
runs the platform install; a version output with a non-numeric component
raises `ValueError` out of the function (the `except` clause only
catches `CalledProcessError`). -/
def install_node (env : Env) (system : String) : Res Unit × List Event :=
  match run_command env "node --version" "Node.js check failed" 1 with
  | (.ok out, e0) =>
    match nodeVersionParts out with
    | none => (.raised (.valueError ((pyStripList out.toList).dropWhile (fun c => c == 'v')).asString), e0)
    | some parts =>
      if pyTupleGe parts nodeMinVersion then (.ret (), e0)
      else
        match installNodeFresh env system with
        | (r, e) => (r, e0 ++ e)
  | (.error _, e0) =>
    match installNodeFresh env system with
    | (r, e) => (r, e0 ++ e)

/-- The apt command installing the core utilities on Linux. -/
def linuxDepsCmd : String := "sudo apt-get update && sudo apt-get install -y curl git"

/-- Model of `install_dependencies(system)`: core utilities via the platform
package manager, then `install_python`, then `install_node`, returning
the interpreter path.  (This function is defined by the script but never
invoked by `main`.) -/
def install_dependencies (env : Env) (system : String) : Res String × List Event :=
  let deps :=
    if system = "Linux" then
      match run_command env linuxDepsCmd "Failed to install Linux dependencies" 2 with
      | (.ok _, e) => ((.ret () : Res Unit), e)
      | (.error er, e) => ((.raised (.calledProcessError er) : Res Unit), e)
    else if system = "Darwin" then
      seqR (install_homebrew env) (fun _ =>
        match run_command env "brew install curl git" "Failed to install macOS dependencies" 2 with
        | (.ok _, e) => ((.ret () : Res Unit), e)
        | (.error er, e) => ((.raised (.calledProcessError er) : Res Unit), e))
    else ((.ret () : Res Unit), [])
  seqR deps (fun _ =>
    seqR (install_python env system) (fun pythonBin =>
      seqR (install_node env system) (fun _ =>
        (.ret pythonBin, []))))

/-- The vendor install-script URL and its fixed temporary path. -/
def ollamaScriptUrl : String := "https://ollama.com/install.sh"

/-- The fixed temporary path of the downloaded Ollama install script. -/
def ollamaScriptPath : String := "/tmp/ollama_install.sh"

/-- The command that makes the downloaded script executable and runs it
with elevated privileges. -/
def ollamaRunCmd : String :=
  "chmod +x " ++ ollamaScriptPath ++ " && sudo " ++ ollamaScriptPath

/-- Model of `install_ollama(system)`: downloads the vendor script to its fixed
temporary path, runs it with elevated privileges, and — only after a
successful run — removes the script file (`os.remove` follows the
`run_command` call with no `finally`, so a failed run propagates before
the removal); afterwards, on Linux with an NVIDIA probe present, sets
the GPU environment for the service manager. -/
def install_ollama (env : Env) (system : String) : Res Unit × List Event :=
  if env.downloadOk ollamaScriptUrl then
    let acc := [Event.download ollamaScriptUrl ollamaScriptPath]
    match run_command env ollamaRunCmd "Failed to install Ollama" 1 with
    | (.error er, e) => (.raised (.calledProcessError er), acc ++ e)
    | (.ok _, e) =>
      let acc := acc ++ e ++ [Event.removeFile ollamaScriptPath]
      if system = "Linux" && env.whichNvidiaSmi then
        match run_command env "sudo systemctl set-environment OLLAMA_NUM_THREADS=0 OLLAMA_USE_GPU=1"
            "Failed to set Ollama GPU environment" 1 with
        | (.ok _, e2) => (.ret (), acc ++ e2)
        | (.error er, e2) => (.raised (.calledProcessError er), acc ++ e2)
      else (.ret (), acc)
  else (.raised (.urlError ollamaScriptUrl), [])

/-- Model of `install_openwebui(python_bin)`: creates the installation directory,
creates the virtual environment with the resolved interpreter, upgrades
pip and installs the package, and hands ownership to the invoking user;
every command failure propagates. -/
def install_openwebui (env : Env) (pythonBin : String) : Res Unit × List Event :=
  let acc := [Event.mkdir "/opt/open-webui"]
  seqR ((.ret () : Res Unit), acc) (fun _ =>
    seqR (match run_command env (pythonBin ++ " -m venv /opt/open-webui/venv")
            "Failed to create virtual environment" 1 with
          | (.ok _, e) => ((.ret () : Res Unit), e)
          | (.error er, e) => ((.raised (.calledProcessError er) : Res Unit), e)) (fun _ =>
      seqR (match run_command env
              "/opt/open-webui/venv/bin/pip install --upgrade pip && /opt/open-webui/venv/bin/pip install open-webui"
              "Failed to install OpenWebUI" 1 with
            | (.ok _, e) => ((.ret () : Res Unit), e)
            | (.error er, e) => ((.raised (.calledProcessError er) : Res Unit), e)) (fun _ =>
        match run_command env ("sudo chown -R " ++ env.user ++ ":" ++ env.user ++ " /opt/open-webui")
            "Failed to set ownership" 1 with
        | (.ok _, e) => ((.ret () : Res Unit), e)
        | (.error er, e) => ((.raised (.calledProcessError er) : Res Unit), e))))

/-- The combined registration command for the Linux services. -/
def linuxServicesCmd : String :=
  String.append
    (String.append "sudo mv /tmp/ollama.service /etc/systemd/system/ && sudo mv /tmp/openwebui.service /etc/systemd/system/ && "
      "sudo systemctl daemon-reload && sudo systemctl enable ollama.service && sudo systemctl enable openwebui.service && ")
    "sudo systemctl start ollama.service && sudo systemctl start openwebui.service"

/-- The combined registration command for the macOS services. -/
def darwinServicesCmd : String :=
  String.append
    (String.append "sudo mv /tmp/com.ollama.ollama.plist /Library/LaunchDaemons/ && sudo mv /tmp/com.openwebui.plist /Library/LaunchDaemons/ && "
      "sudo chown root:wheel /Library/LaunchDaemons/com.ollama.ollama.plist /Library/LaunchDaemons/com.openwebui.plist && ")
    "sudo launchctl load /Library/LaunchDaemons/com.ollama.ollama.plist && sudo launchctl load /Library/LaunchDaemons/com.openwebui.plist"

/-- Model of `configure_services(system)`: writes the two service descriptors to
temporary files (their rendered text is elided from the model), then
moves, enables and starts both services in one fatal command. -/
def configure_services (env : Env) (system : String) : Res Unit × List Event :=
  if system = "Linux" then
    let acc := [Event.writeFile "/tmp/ollama.service", Event.writeFile "/tmp/openwebui.service"]
    match run_command env linuxServicesCmd "Failed to configure services" 1 with
    | (.ok _, e) => (.ret (), acc ++ e)
    | (.error er, e) => (.raised (.calledProcessError er), acc ++ e)
  else if system = "Darwin" then
    let acc := [Event.writeFile "/tmp/com.ollama.ollama.plist", Event.writeFile "/tmp/com.openwebui.plist"]
    match run_command env darwinServicesCmd "Failed to configure macOS services" 1 with
    | (.ok _, e) => (.ret (), acc ++ e)
    | (.error er, e) => (.raised (.calledProcessError er), acc ++ e)
  else (.ret (), [])

/-- Lifts a helper step into the orchestrator, which can additionally
`os.execv`: exceptions and exits short-circuit, traces accumulate. -/
def liftStep {α : Type} (x : Res α × List Event) (k : α → Outcome × List Event) :
    Outcome × List Event :=
  match x with
  | (.ret a, e) => ((k a).1, e ++ (k a).2)
  | (.exited c, e) => (.exited c, e)
  | (.raised ex, e) => (.raised ex, e)

/-- Model of `main()`: platform gate, interpreter provisioning, the one-time
re-execution under the pinned interpreter when the running interpreter
is not 3.11 (`os.execv(python_bin, [python_bin, *sys.argv])`, provided
the binary path exists, else exit 1), then the JavaScript runtime, the
model runtime, the web application and the services.  `pyMajor.pyMinor`
is the running interpreter's version and `argv` is `sys.argv`. -/
def mainFn (env : Env) (system : String) (pyMajor pyMinor : Nat) (argv : List String) :
    Outcome × List Event :=
  liftStep (check_system system) (fun sys2 =>
    liftStep (install_python env sys2) (fun pythonBin =>
      if check_python_version pyMajor pyMinor = false then
        if env.pathExists pythonBin then
          (.execed pythonBin (pythonBin :: argv), [])
        else
          (.exited 1, [.print ("Error: Python 3.11 binary (" ++ pythonBin ++ ") not found after installation.")])
      else
        liftStep (install_node env sys2) (fun _ =>
          liftStep (install_ollama env sys2) (fun _ =>
            liftStep (install_openwebui env pythonBin) (fun _ =>
              liftStep (configure_services env sys2) (fun _ =>
                (.done, [])))))))

/-- Non-logging events of a trace. -/
def sideEffects (evs : List Event) : List Event :=
  evs.filter (fun ev => match ev with | .print _ => false | _ => true)

/-- The command lines invoked in a trace. -/
def commandsOf (evs : List Event) : List String :=
  evs.filterMap (fun ev => match ev with | .cmd l _ => some l | _ => none)

/-- Whether a trace consists only of command invocations and log lines
(no filesystem writes, removals or downloads). -/
def cmdPrintOnly (evs : List Event) : Bool :=
  evs.all (fun ev => match ev with | .cmd _ _ => true | .print _ => true | _ => false)

/-- The line appended to `~/.zshrc` by a shell command of the form
`echo '<line>' >> ~/.zshrc`, if any. -/
def echoAppendLine (line : String) : Option String :=
  let cs := line.toList
  if listIsPre "echo '".toList cs && listIsPre "' >> ~/.zshrc".toList.reverse cs.reverse then
    some (((cs.drop 6).reverse.drop 13).reverse.asString)
  else none

/-- The `~/.zshrc` contents after a trace: each successful append-echo
command adds its line at the end of the file. -/
def zshrcAfter (profile : List String) (evs : List Event) : List String :=
  List.foldl (fun p ev =>
    match ev with
    | Event.cmd line true =>
      match echoAppendLine line with
      | some l => p ++ [l]
      | none => p
    | _ => p) profile evs

/-- A world where every command succeeds with empty output, except that
the interpreter probe reports 3.11 and the Node.js probe reports a
satisfying version. -/
def envHappy : Env where
  run := fun c _ =>
    if c = "node --version" then .ok "v20.10.0"
    else if c = "python3.11 --version" then .ok "Python 3.11.9"
    else if c = "/opt/homebrew/bin/python3.11 --version" then .ok "Python 3.11.9"
    else .ok ""
  downloadOk := fun _ => true
  pathExists := fun _ => true
  whichBrew := true
  whichNvidiaSmi := false
  machineArm := true
  tempDir := "/tmp/tmpdir"
  user := "alice"

/-- Whether a `mainFn` outcome is a process-image replacement. -/
def Outcome.isExec : Outcome → Bool
  | .execed _ _ => true
  | _ => false

/-- A world where the Node.js probe reports a release-candidate version
string and every other command succeeds with empty output. -/
def envRC : Env where
  run := fun c _ => if c = "node --version" then .ok "v20.10.0-rc1\n" else .ok ""
  downloadOk := fun _ => true
  pathExists := fun _ => true
  whichBrew := true
  whichNvidiaSmi := false
  machineArm := true
  tempDir := "/tmp/tmpdir"
  user := "alice"

/-- A world where the elevated run of the Ollama install script fails
and every other command succeeds. -/
def envOllamaFail : Env where
  run := fun c _ => if c = ollamaRunCmd then .err ⟨1, "", ""⟩ else .ok ""
  downloadOk := fun _ => true
  pathExists := fun _ => true
  whichBrew := true
  whichNvidiaSmi := false
  machineArm := true
  tempDir := "/tmp/tmpdir"
  user := "alice"

/-- A world where Homebrew is present but every shell command fails on
every attempt. -/
def envBrewFail : Env where
  run := fun _ _ => .err ⟨1, "", ""⟩
  downloadOk := fun _ => true
  pathExists := fun _ => true
  whichBrew := true
  whichNvidiaSmi := false
  machineArm := true
  tempDir := "/tmp/tmpdir"
  user := "alice"

/-- A world where every probe of the expected macOS Python 3.11 binary
fails and every other command succeeds: the Homebrew strategy is
attempted and its verification fails, selecting the python.org package
fallback. -/
def envNoPy : Env where
  run := fun c _ =>
    if c = versionCmd "/opt/homebrew/bin/python3.11" then .err ⟨1, "", ""⟩ else .ok ""
  downloadOk := fun _ => true
  pathExists := fun _ => true
  whichBrew := true
  whichNvidiaSmi := false
  machineArm := true
  tempDir := "/tmp/t"
  user := "alice"

/-- If every attempt at a command fails with the same error, the retry
loop returns that error. -/
theorem runAttempts_fail (env : Env) (line : String) (e0 : CmdError)
    (h : ∀ a, env.run line a = .err e0) :
    ∀ n attempt, runAttempts env line attempt (n + 1) = .error e0 := by
  intro n
  induction n with
  | zero => intro attempt; simp [runAttempts, h attempt]
  | succ k ih =>
    intro attempt
    rw [runAttempts, h attempt]
    simpa using ih (attempt + 1)

/-- If every attempt at a command fails with the same error,
`run_command` reports that error and a single failed invocation. -/
theorem run_command_fail (env : Env) (line msg : String) (e0 : CmdError) (n : Nat)
    (h : ∀ a, env.run line a = .err e0) :
    run_command env line msg (n + 1) = (.error e0, [.cmd line false]) := by
  simp [run_command, runAttempts_fail env line e0 h n 1]

/-- A failing advisory step contributes its failed invocation and its
warning line. -/
theorem tryAdvisory_fail (env : Env) (line msg w : String) (e0 : CmdError) (n : Nat)
    (h : ∀ a, env.run line a = .err e0) :
    tryAdvisory env line msg (n + 1) w = [.cmd line false, .print w] := by
  simp [tryAdvisory, run_command_fail env line msg e0 n h]

/-- A failing two-command advisory block stops at its first command and
logs its warning line. -/
theorem tryAdvisory2_fail (env : Env) (l1 m1 l2 m2 w : String) (e0 : CmdError) (n : Nat)
    (h : ∀ a, env.run l1 a = .err e0) :
    tryAdvisory2 env l1 m1 l2 m2 (n + 1) w = [.cmd l1 false, .print w] := by
  simp [tryAdvisory2, run_command_fail env l1 m1 e0 n h]

/-- The predicate `cmdPrintOnly` distributes over trace concatenation. -/
theorem cmdPrintOnly_append (a b : List Event) :
    cmdPrintOnly (a ++ b) = (cmdPrintOnly a && cmdPrintOnly b) := by
  simp [cmdPrintOnly, List.all_append]

/-- A `run_command` trace holds only command invocations. -/
theorem run_command_cmdPrintOnly (env : Env) (l m : String) (r : Nat) :
    cmdPrintOnly (run_command env l m r).2 = true := by
  unfold run_command
  split <;> simp [cmdPrintOnly]

/-- The trace half of a `run_command` equation holds only command
invocations. -/
theorem run_command_snd_shape (env : Env) (l m : String) (r : Nat)
    (res : Except CmdError String) (e : List Event)
    (h : run_command env l m r = (res, e)) : cmdPrintOnly e = true := by
  have := run_command_cmdPrintOnly env l m r
  rw [h] at this
  exact this

/-- An advisory step's trace holds only command invocations and log
lines. -/
theorem tryAdvisory_cmdPrintOnly (env : Env) (l m w : String) (r : Nat) :
    cmdPrintOnly (tryAdvisory env l m r w) = true := by
  unfold tryAdvisory
  split
  case _ x e heq => exact run_command_snd_shape env l m r _ e heq
  case _ x e heq =>
    have h1 : cmdPrintOnly e = true := run_command_snd_shape env l m r _ e heq
    rw [cmdPrintOnly_append, h1]
    simp [cmdPrintOnly]

/-- A two-command advisory block's trace holds only command invocations
and log lines. -/
theorem tryAdvisory2_cmdPrintOnly (env : Env) (l1 m1 l2 m2 w : String) (r : Nat) :
    cmdPrintOnly (tryAdvisory2 env l1 m1 l2 m2 r w) = true := by
  unfold tryAdvisory2
  split
  case _ x e1 heq =>
    have h1 : cmdPrintOnly e1 = true := run_command_snd_shape env l1 m1 r _ e1 heq
    split
    case _ y e2 heq2 =>
      have h2 : cmdPrintOnly e2 = true := run_command_snd_shape env l2 m2 r _ e2 heq2
      rw [cmdPrintOnly_append, h1, h2]
      rfl
    case _ y e2 heq2 =>
      have h2 : cmdPrintOnly e2 = true := run_command_snd_shape env l2 m2 r _ e2 heq2
      rw [cmdPrintOnly_append, cmdPrintOnly_append, h1, h2]
      simp [cmdPrintOnly]
  case _ x e1 heq =>
    have h1 : cmdPrintOnly e1 = true := run_command_snd_shape env l1 m1 r _ e1 heq
    rw [cmdPrintOnly_append, h1]
    simp [cmdPrintOnly]

/-- The Homebrew setup trace holds only command invocations and log
lines. -/
theorem install_homebrew_cmdPrintOnly (env : Env) :
    cmdPrintOnly (install_homebrew env).2 = true := by
  unfold install_homebrew
  split
  case _ e evs heq =>
    by_cases hb : env.whichBrew
    · rw [if_pos hb] at heq
      simp at heq
    · rw [if_neg hb] at heq
      exact run_command_snd_shape env homebrewInstallCmd "Failed to install Homebrew" 2 _ evs heq
  case _ x evs heq =>
    have hevs : cmdPrintOnly evs = true := by
      by_cases hb : env.whichBrew
      · rw [if_pos hb] at heq
        injection heq with h1 h2
        rw [← h2]
        rfl
      · rw [if_neg hb] at heq
        exact run_command_snd_shape env homebrewInstallCmd "Failed to install Homebrew" 2 _ evs heq
    simp only [cmdPrintOnly_append, hevs, tryAdvisory_cmdPrintOnly, tryAdvisory2_cmdPrintOnly,
      Bool.true_and, Bool.and_true]

/-- The final-verification trace holds only command invocations and log
lines. -/
theorem finalVerify_cmdPrintOnly (env : Env) (bin : String) :
    cmdPrintOnly (finalVerify env bin).2 = true := by
  unfold finalVerify
  split
  case _ x e heq =>
    exact run_command_snd_shape env (versionCmd bin) "Python 3.11 final verification failed" 1 _ e heq
  case _ x e heq =>
    have h1 : cmdPrintOnly e = true :=
      run_command_snd_shape env (versionCmd bin) "Python 3.11 final verification failed" 1 _ e heq
    rw [cmdPrintOnly_append, h1]
    rfl

/-- The inner Homebrew attempt of `install_python` produces only command
invocations and log lines. -/
theorem darwinBrewInner_cmdPrintOnly (env : Env) :
    cmdPrintOnly (darwinBrewInner env).2 = true := by
  unfold darwinBrewInner
  split
  case _ x e heq =>
    have h1 : cmdPrintOnly e = true := run_command_snd_shape env _ _ 1 _ e heq
    rw [cmdPrintOnly_append, h1]
    rfl
  case _ x e1 heq1 =>
    have h1 : cmdPrintOnly e1 = true := run_command_snd_shape env _ _ 1 _ e1 heq1
    split
    case _ y e heq =>
      have h2 : cmdPrintOnly e = true := run_command_snd_shape env _ _ 1 _ e heq
      simp only [cmdPrintOnly_append, h1, h2, Bool.true_and]
      rfl
    case _ brewList e2 heq2 =>
      have h2 : cmdPrintOnly e2 = true := run_command_snd_shape env _ _ 1 _ e2 heq2
      split
      case _ y e heq3 =>
        have h3 : cmdPrintOnly e = true := by
          by_cases hp : pyIn "python@3.11" brewList
          · rw [if_pos hp] at heq3
            simp at heq3
          · rw [if_neg hp] at heq3
            exact run_command_snd_shape env _ _ 2 _ e heq3
        simp only [cmdPrintOnly_append, h1, h2, h3, Bool.true_and]
        rfl
      case _ y e3 heq3 =>
        have h3 : cmdPrintOnly e3 = true := by
          by_cases hp : pyIn "python@3.11" brewList
          · rw [if_pos hp] at heq3
            injection heq3 with ha hb
            rw [← hb]
            rfl
          · rw [if_neg hp] at heq3
            exact run_command_snd_shape env _ _ 2 _ e3 heq3
        split
        case _ z e heq4 =>
          have h4 : cmdPrintOnly e = true := run_command_snd_shape env _ _ 2 _ e heq4
          simp only [cmdPrintOnly_append, h1, h2, h3, h4, Bool.true_and]
          rfl
        case _ z e4 heq4 =>
          have h4 : cmdPrintOnly e4 = true := run_command_snd_shape env _ _ 2 _ e4 heq4
          split
          · split
            case _ w e5 heq5 =>
              have h5 : cmdPrintOnly e5 = true := run_command_snd_shape env _ _ 1 _ e5 heq5
              simp only [cmdPrintOnly_append, h1, h2, h3, h4, h5, Bool.true_and, Bool.and_true]
            case _ w e5 heq5 =>
              have h5 : cmdPrintOnly e5 = true := run_command_snd_shape env _ _ 1 _ e5 heq5
              simp only [cmdPrintOnly_append, h1, h2, h3, h4, h5, Bool.true_and, Bool.and_true]
              rfl
          · simp only [cmdPrintOnly_append, h1, h2, h3, h4, Bool.true_and, Bool.and_true]
            rfl

/-- The whole Homebrew phase of `install_python` produces only command
invocations and log lines. -/
theorem darwinBrewPhase_cmdPrintOnly (env : Env) :
    cmdPrintOnly (darwinBrewPhase env).2 = true := by
  unfold darwinBrewPhase
  split
  case _ x e1 heq1 =>
    have h1 : cmdPrintOnly e1 = true := by
      have := install_homebrew_cmdPrintOnly env
      rw [heq1] at this
      exact this
    split
    case _ r e2 heq2 =>
      have h2 : cmdPrintOnly e2 = true := by
        have := darwinBrewInner_cmdPrintOnly env
        rw [heq2] at this
        exact this
      rw [cmdPrintOnly_append, h1, h2]
      rfl
  case _ x e1 hne heq1 =>
    have h1 : cmdPrintOnly e1 = true := by
      have := install_homebrew_cmdPrintOnly env
      rw [heq1] at this
      exact this
    rw [cmdPrintOnly_append, h1]
    rfl

/-- A command-and-log-only trace holds no download events. -/
theorem cmdPrintOnly_no_download (evs : List Event) (h : cmdPrintOnly evs = true)
    (u d : String) : Event.download u d ∉ evs := by
  intro hm
  have := List.all_eq_true.mp h (Event.download u d) hm
  simp at this

/-- A command-and-log-only trace holds no file-removal events. -/
theorem cmdPrintOnly_no_removeFile (evs : List Event) (h : cmdPrintOnly evs = true)
    (p : String) : Event.removeFile p ∉ evs := by
  intro hm
  have := List.all_eq_true.mp h (Event.removeFile p) hm
  simp at this

/-- The trace half of a `run_command` equation is a single invocation of
the given command line. -/
theorem run_command_snd_eq (env : Env) (l m : String) (r : Nat) :
    ∃ b, (run_command env l m r).2 = [Event.cmd l b] := by
  unfold run_command
  split
  · exact ⟨true, rfl⟩
  · exact ⟨false, rfl⟩

/-- Claim C1: for every platform identity other than Linux and Darwin the
program exits with status 1 having performed no side effect beyond the
diagnostic, and for each of the two supported identities the platform gate
returns that identity unchanged. -/
theorem claim1_platform_gate :
    (∀ s, ¬ (s = "Linux" ∨ s = "Darwin") →
      check_system s =
        (.exited 1, [.print "Error: This installer supports only macOS and Linux."])) ∧
    check_system "Linux" = (.ret "Linux", []) ∧
    check_system "Darwin" = (.ret "Darwin", []) ∧
    (∀ env s pyMajor pyMinor argv, ¬ (s = "Linux" ∨ s = "Darwin") →
      (mainFn env s pyMajor pyMinor argv).1 = .exited 1 ∧
      sideEffects (mainFn env s pyMajor pyMinor argv).2 = []) := by
  have hgate : ∀ s, ¬ (s = "Linux" ∨ s = "Darwin") →
      check_system s =
        (.exited 1, [.print "Error: This installer supports only macOS and Linux."]) := by
    intro s hs
    have hmem : ¬ (s ∈ (["Linux", "Darwin"] : List String)) := by
      simpa using hs
    simp [check_system, hmem]
  refine ⟨hgate, by decide, by decide, ?_⟩
  intro env s pyMajor pyMinor argv hs
  have h := hgate s hs
  unfold mainFn
  rw [h]
  exact ⟨rfl, rfl⟩

/-- Witness for C1 at the unsupported platform identity Windows. -/
theorem claim1_platform_gate_witness :
    (mainFn envHappy "Windows" 3 11 ["install_ollama_openwebui.py"]).1 = .exited 1 ∧
    sideEffects (mainFn envHappy "Windows" 3 11 ["install_ollama_openwebui.py"]).2 = [] :=
  claim1_platform_gate.2.2.2 envHappy "Windows" 3 11 ["install_ollama_openwebui.py"] (by decide)

/-- Claim C2: when the fast-path probe of the interpreter binary at the
expected location reports 3.11, `install_python` returns that binary's
path at once, and the probe is the only command the provisioner ran. -/
theorem claim2_python_fast_path (env : Env) (system out : String)
    (hrun : env.run (versionCmd (pythonBinFor system)) 1 = .ok out)
    (hver : pyIn "3.11" out = true) :
    install_python env system =
      (.ret (pythonBinFor system), [.cmd (versionCmd (pythonBinFor system)) true]) ∧
    commandsOf (install_python env system).2 = [versionCmd (pythonBinFor system)] := by
  have hrc : run_command env (versionCmd (pythonBinFor system)) "Python 3.11 check failed" 1 =
      (.ok out, [.cmd (versionCmd (pythonBinFor system)) true]) := by
    simp [run_command, runAttempts, hrun]
  have h1 : install_python env system =
      (.ret (pythonBinFor system), [.cmd (versionCmd (pythonBinFor system)) true]) := by
    unfold install_python
    rw [hrc]
    simp [hver]
  refine ⟨h1, ?_⟩
  rw [h1]
  rfl

/-- Witness for C2 in a world whose interpreter probe reports 3.11. -/
theorem claim2_python_fast_path_witness :
    install_python envHappy "Darwin" =
      (.ret "/opt/homebrew/bin/python3.11",
       [.cmd "/opt/homebrew/bin/python3.11 --version" true]) :=
  (claim2_python_fast_path envHappy "Darwin" "Python 3.11.9" rfl (by decide)).1

/-- Claim C4: the JavaScript-runtime check accepts a three-component
version exactly when its numeric (major, minor, patch) tuple is at least
(20, 10, 0): 20.10.0 passes, 20.9.9 fails, 20.9.0 fails even though a
lexicographic string comparison would order it above 20.10.0, and an
accepted version makes `install_node` return with the probe as its only
command. -/
theorem claim4_node_version_check :
    nodeVersionOk "v20.10.0" = some true ∧
    nodeVersionOk "v20.9.9" = some false ∧
    nodeVersionOk "v20.9.0" = some false ∧
    (∀ a b c : Int, pyTupleGe [a, b, c] nodeMinVersion = true ↔
      (20 < a ∨ (a = 20 ∧ (10 < b ∨ (b = 10 ∧ 0 ≤ c))))) ∧
    lexStringLt "20.10.0" "20.9.0" = true ∧
    (∀ env system out, env.run "node --version" 1 = .ok out → nodeVersionOk out = some true →
      install_node env system = (.ret (), [.cmd "node --version" true])) := by
  refine ⟨by decide, by decide, by decide, ?_, by decide, ?_⟩
  · intro a b c
    simp only [pyTupleGe, pyTupleLt, nodeMinVersion, Bool.not_eq_true']
    simp only [Bool.or_eq_false_iff, Bool.and_eq_false_iff, decide_eq_false_iff_not, not_lt,
      beq_eq_false_iff_ne, ne_eq, decide_eq_true_eq, Bool.and_eq_true, beq_iff_eq,
      or_true, and_true]
    constructor
    · intro h
      omega
    · intro h
      omega
  · intro env system out hrun hok
    obtain ⟨parts, hp, hge⟩ : ∃ parts, nodeVersionParts out = some parts ∧
        pyTupleGe parts nodeMinVersion = true := by
      unfold nodeVersionOk at hok
      cases hpp : nodeVersionParts out with
      | none => rw [hpp] at hok; simp at hok
      | some ps =>
        rw [hpp] at hok
        simp at hok
        exact ⟨ps, rfl, hok⟩
    have hrc : run_command env "node --version" "Node.js check failed" 1 =
        (.ok out, [.cmd "node --version" true]) := by
      simp [run_command, runAttempts, hrun]
    unfold install_node
    rw [hrc]
    dsimp only
    rw [hp]
    simp [hge]

/-- Witness for C4 in a world whose Node.js probe reports v20.10.0. -/
theorem claim4_node_version_check_witness :
    install_node envHappy "Linux" = (.ret (), [.cmd "node --version" true]) :=
  claim4_node_version_check.2.2.2.2.2 envHappy "Linux" "v20.10.0" rfl (by decide)

/-- Claim C10: a Node.js probe output with a non-numeric component makes
`install_node` raise the unguarded `int()` parse error: it neither
treats the version as below the minimum (no install command runs) nor
exits with a diagnostic. -/
theorem claim10_node_rc_parse (env : Env) (system : String)
    (hrun : env.run "node --version" 1 = .ok "v20.10.0-rc1\n") :
    install_node env system =
      (.raised (.valueError "20.10.0-rc1"), [.cmd "node --version" true]) := by
  have hrc : run_command env "node --version" "Node.js check failed" 1 =
      (.ok "v20.10.0-rc1\n", [.cmd "node --version" true]) := by
    simp [run_command, runAttempts, hrun]
  unfold install_node
  rw [hrc]
  dsimp only
  have hnp : nodeVersionParts "v20.10.0-rc1\n" = none := by decide
  rw [hnp]
  dsimp only
  decide

/-- Witness for C10 in a world whose Node.js probe reports a
release-candidate version string. -/
theorem claim10_node_rc_parse_witness :
    install_node envRC "Darwin" =
      (.raised (.valueError "20.10.0-rc1"), [.cmd "node --version" true]) :=
  claim10_node_rc_parse envRC "Darwin" rfl

/-- Claim C7: whenever Homebrew is already present, the advisory hygiene
steps of `install_homebrew` can never make it abort — it returns
normally for every world — and when every attempt of every command
fails, each hygiene failure is logged as a warning. -/
theorem claim7_homebrew_advisory (env : Env) (hb : env.whichBrew = true) :
    (install_homebrew env).1 = .ret () ∧
    ((∀ c a, env.run c a = .err ⟨1, "", ""⟩) →
      Event.print "Warning: Failed to fix Homebrew permissions, continuing..."
          ∈ (install_homebrew env).2 ∧
      Event.print "Warning: Failed to clean or reset Homebrew, continuing..."
          ∈ (install_homebrew env).2 ∧
      Event.print "Warning: brew doctor failed, continuing..."
          ∈ (install_homebrew env).2 ∧
      Event.print "Warning: Failed to update Homebrew, continuing..."
          ∈ (install_homebrew env).2 ∧
      Event.print "Warning: Failed to update PATH in ~/.zshrc, continuing..."
          ∈ (install_homebrew env).2) := by
  constructor
  · simp [install_homebrew, hb]
  · intro hall
    have h1 : tryAdvisory env (chownCmd (brewPath env)) "Failed to fix Homebrew permissions" 2
        "Warning: Failed to fix Homebrew permissions, continuing..." =
        [.cmd (chownCmd (brewPath env)) false,
         .print "Warning: Failed to fix Homebrew permissions, continuing..."] :=
      tryAdvisory_fail env _ _ _ ⟨1, "", ""⟩ 1 (fun a => hall _ a)
    have h2 : tryAdvisory2 env "brew cleanup" "Failed to clean Homebrew"
        "brew update-reset" "Failed to reset Homebrew" 2
        "Warning: Failed to clean or reset Homebrew, continuing..." =
        [.cmd "brew cleanup" false,
         .print "Warning: Failed to clean or reset Homebrew, continuing..."] :=
      tryAdvisory2_fail env _ _ _ _ _ ⟨1, "", ""⟩ 1 (fun a => hall _ a)
    have h3 : tryAdvisory env "brew doctor" "Homebrew health check failed" 2
        "Warning: brew doctor failed, continuing..." =
        [.cmd "brew doctor" false, .print "Warning: brew doctor failed, continuing..."] :=
      tryAdvisory_fail env _ _ _ ⟨1, "", ""⟩ 1 (fun a => hall _ a)
    have h4 : tryAdvisory env "brew update" "Failed to update Homebrew" 2
        "Warning: Failed to update Homebrew, continuing..." =
        [.cmd "brew update" false, .print "Warning: Failed to update Homebrew, continuing..."] :=
      tryAdvisory_fail env _ _ _ ⟨1, "", ""⟩ 1 (fun a => hall _ a)
    have h5 : tryAdvisory env (echoPathCmd (brewPath env)) "Failed to update PATH" 1
        "Warning: Failed to update PATH in ~/.zshrc, continuing..." =
        [.cmd (echoPathCmd (brewPath env)) false,
         .print "Warning: Failed to update PATH in ~/.zshrc, continuing..."] :=
      tryAdvisory_fail env _ _ _ ⟨1, "", ""⟩ 0 (fun a => hall _ a)
    refine ⟨?_, ?_, ?_, ?_, ?_⟩ <;>
      simp [install_homebrew, hb, h1, h2, h3, h4, h5]

/-- Witness for C7 in a world where Homebrew is present and every
command fails on every attempt. -/
theorem claim7_homebrew_advisory_witness :
    (install_homebrew envBrewFail).1 = .ret () ∧
    Event.print "Warning: brew doctor failed, continuing..."
        ∈ (install_homebrew envBrewFail).2 := by
  have h := claim7_homebrew_advisory envBrewFail rfl
  exact ⟨h.1, (h.2 (fun c a => rfl)).2.2.1⟩

/-- Claim C5 counterexample: in a world where the elevated run of the
Ollama install script fails, `install_ollama` propagates the error and
its trace holds no removal of the downloaded script — the script file
is not deleted when the run fails. -/
theorem claim5_counterexample :
    install_ollama envOllamaFail "Linux" =
      (.raised (.calledProcessError ⟨1, "", ""⟩),
       [.download ollamaScriptUrl ollamaScriptPath, .cmd ollamaRunCmd false]) ∧
    Event.removeFile ollamaScriptPath ∉ (install_ollama envOllamaFail "Linux").2 := by
  constructor
  · decide
  · decide

/-- Claim C5 as amended: after downloading the vendor script,
`install_ollama` deletes it only when the elevated run succeeded; when
the run fails, the `CalledProcessError` propagates and the script file
is left in place. -/
theorem claim5_amended (env : Env) (system : String)
    (hdl : env.downloadOk ollamaScriptUrl = true) :
    (∀ out, env.run ollamaRunCmd 1 = .ok out →
      Event.removeFile ollamaScriptPath ∈ (install_ollama env system).2) ∧
    (∀ er, env.run ollamaRunCmd 1 = .err er →
      (install_ollama env system).1 = .raised (.calledProcessError er) ∧
      Event.removeFile ollamaScriptPath ∉ (install_ollama env system).2) := by
  constructor
  · intro out hok
    have hrc : run_command env ollamaRunCmd "Failed to install Ollama" 1 =
        (.ok out, [.cmd ollamaRunCmd true]) := by
      simp [run_command, runAttempts, hok]
    unfold install_ollama
    rw [if_pos hdl]
    dsimp only
    rw [hrc]
    dsimp only
    split
    · split <;> simp
    · simp
  · intro er herr
    have hrc : run_command env ollamaRunCmd "Failed to install Ollama" 1 =
        (.error er, [.cmd ollamaRunCmd false]) := by
      simp [run_command, runAttempts, herr]
    unfold install_ollama
    rw [if_pos hdl]
    dsimp only
    rw [hrc]
    dsimp only
    simp

/-- Witness for the amended C5 in a world where the elevated run of the
script succeeds. -/
theorem claim5_amended_witness :
    Event.removeFile ollamaScriptPath ∈ (install_ollama envHappy "Linux").2 :=
  (claim5_amended envHappy "Linux" rfl).1 "" rfl

/-- Claim C9 counterexample: two executions of the PATH-persisting step
(one per program run) leave two copies of the appended line in
`~/.zshrc`, not at most one — the append is not guarded by an existence
check. -/
theorem claim9_counterexample :
    ((zshrcAfter (zshrcAfter [] (install_homebrew envHappy).2)
        (install_homebrew envHappy).2).count "export PATH=/opt/homebrew/bin:$PATH") = 2 := by
  decide

/-- Claim C9 as amended: the shell-profile append is unconditional — the
program never checks the profile's prior contents, so each run that
reaches the step appends a fresh copy of the line regardless of what the
profile already holds (n runs leave n copies). -/
theorem claim9_amended (p : List String) :
    zshrcAfter p (install_homebrew envHappy).2 =
      p ++ ["export PATH=/opt/homebrew/bin:$PATH"] := by
  have ht : (install_homebrew envHappy).2 =
      [.cmd (chownCmd "/opt/homebrew/bin") true,
       .cmd "brew cleanup" true, .cmd "brew update-reset" true,
       .cmd "brew doctor" true, .cmd "brew update" true,
       .cmd (echoPathCmd "/opt/homebrew/bin") true] := by decide
  rw [ht]
  rfl

/-- Claim C6 counterexample: a complete successful run of the program
(Linux, interpreter already 3.11) invokes no core-utilities installation
at all — neither the apt `curl git` command nor the Homebrew one — while
it does provision the interpreter, so the dependency-installer step does
not precede interpreter provisioning on every run. -/
theorem claim6_counterexample :
    (mainFn envHappy "Linux" 3 11 ["install_ollama_openwebui.py"]).1 = .done ∧
    linuxDepsCmd ∉ commandsOf (mainFn envHappy "Linux" 3 11 ["install_ollama_openwebui.py"]).2 ∧
    "brew install curl git"
        ∉ commandsOf (mainFn envHappy "Linux" 3 11 ["install_ollama_openwebui.py"]).2 ∧
    "python3.11 --version"
        ∈ commandsOf (mainFn envHappy "Linux" 3 11 ["install_ollama_openwebui.py"]).2 := by
  refine ⟨by decide, by decide, by decide, by decide⟩

/-- Claim C6 as amended: `install_dependencies` itself does run the
core-utilities installation first, before interpreter provisioning, but
`main` never calls it — a run of the program provisions the interpreter
with no prior core-utilities step. -/
theorem claim6_amended :
    (∀ env, ∃ b rest, (install_dependencies env "Linux").2 = Event.cmd linuxDepsCmd b :: rest) ∧
    (mainFn envHappy "Linux" 3 11 ["x"]).1 = .done ∧
    linuxDepsCmd ∉ commandsOf (mainFn envHappy "Linux" 3 11 ["x"]).2 := by
  refine ⟨?_, by decide, by decide⟩
  intro env
  unfold install_dependencies
  rw [if_pos rfl]
  rcases hrc : run_command env linuxDepsCmd "Failed to install Linux dependencies" 2 with ⟨res, e⟩
  obtain ⟨b, hb⟩ := run_command_snd_eq env linuxDepsCmd "Failed to install Linux dependencies" 2
  rw [hrc] at hb
  simp only at hb
  cases res with
  | ok out =>
    subst hb
    dsimp only [seqR]
    exact ⟨b, _, rfl⟩
  | error er =>
    subst hb
    dsimp only [seqR]
    exact ⟨b, [], rfl⟩

/-- Lifting a helper step cannot create a process-image replacement the
continuation does not create. -/
theorem liftStep_isExec_false {α : Type} (x : Res α × List Event)
    (k : α → Outcome × List Event) (h : ∀ a, ((k a).1).isExec = false) :
    ((liftStep x k).1).isExec = false := by
  rcases x with ⟨r, e⟩
  cases r with
  | ret a => simpa [liftStep] using h a
  | exited c => rfl
  | raised ex => rfl

/-- Claim C8: on a supported platform with a resolved interpreter whose
path exists, `main` replaces the process image — same program, original
arguments prepended with the interpreter path — exactly when the running
interpreter is not 3.11, and a run whose interpreter passes the 3.11
check never re-executes, so the re-launch happens at most once. -/
theorem claim8_reexec (env : Env) (system : String) (pyMajor pyMinor : Nat)
    (argv : List String) (pythonBin : String) (e1 : List Event)
    (hsys : system = "Linux" ∨ system = "Darwin")
    (hpy : install_python env system = (.ret pythonBin, e1))
    (hex : env.pathExists pythonBin = true) :
    (check_python_version pyMajor pyMinor = false ↔ ¬ (pyMajor = 3 ∧ pyMinor = 11)) ∧
    (check_python_version pyMajor pyMinor = false →
      (mainFn env system pyMajor pyMinor argv).1 = .execed pythonBin (pythonBin :: argv)) ∧
    (check_python_version pyMajor pyMinor = true →
      ((mainFn env system pyMajor pyMinor argv).1).isExec = false) := by
  have hiff : check_python_version pyMajor pyMinor = true ↔ (pyMajor = 3 ∧ pyMinor = 11) := by
    simp [check_python_version]
  have hcs : check_system system = (.ret system, []) := by
    rcases hsys with h | h <;> subst h <;> rfl
  refine ⟨Bool.eq_false_iff.trans (not_congr hiff), ?_, ?_⟩
  · intro hc
    unfold mainFn
    rw [hcs]
    dsimp only [liftStep]
    rw [hpy]
    dsimp only [liftStep]
    rw [if_pos hc, if_pos hex]
  · intro hc
    unfold mainFn
    rw [hcs]
    dsimp only [liftStep]
    rw [hpy]
    dsimp only [liftStep]
    rw [if_neg (by simp [hc])]
    refine liftStep_isExec_false _ _ (fun _ => ?_)
    refine liftStep_isExec_false _ _ (fun _ => ?_)
    refine liftStep_isExec_false _ _ (fun _ => ?_)
    rcases hconf : configure_services env system with ⟨r, e⟩
    cases r <;> rfl

/-- Witness for C8: a run under Python 3.10 re-executes under the
resolved interpreter with the original arguments. -/
theorem claim8_reexec_witness :
    (mainFn envHappy "Linux" 3 10 ["install_ollama_openwebui.py"]).1 =
      .execed "python3.11" ["python3.11", "install_ollama_openwebui.py"] :=
  (claim8_reexec envHappy "Linux" 3 10 ["install_ollama_openwebui.py"] "python3.11"
      [.cmd "python3.11 --version" true] (Or.inl rfl) (by decide) rfl).2.1 (by decide)

/-- A command-and-log-only trace counts no download events. -/
theorem count_download_zero (evs : List Event) (h : cmdPrintOnly evs = true) (u d : String) :
    evs.count (Event.download u d) = 0 :=
  List.count_eq_zero.mpr (cmdPrintOnly_no_download evs h u d)

/-- A command-and-log-only trace counts no file-removal events. -/
theorem count_removeFile_zero (evs : List Event) (h : cmdPrintOnly evs = true) (p : String) :
    evs.count (Event.removeFile p) = 0 :=
  List.count_eq_zero.mpr (cmdPrintOnly_no_removeFile evs h p)

/-- Claim C3: on macOS, when the fast-path probe fails and the Homebrew
strategy falls back, `install_python` downloads the python.org installer
package exactly once and removes the downloaded package from temporary
storage exactly once — and since the world is arbitrary, this holds
whether the elevated installer run succeeds or fails. -/
theorem claim3_pkg_fallback (env : Env) (er : CmdError) (e : List Event)
    (hfast : env.run (versionCmd "/opt/homebrew/bin/python3.11") 1 = .err er)
    (hbrew : darwinBrewPhase env = (.inr (), e))
    (hdl : env.downloadOk pythonPkgUrl = true) :
    ((install_python env "Darwin").2).count
        (Event.download pythonPkgUrl (env.tempDir ++ "/python-3.11.9-macos11.pkg")) = 1 ∧
    ((install_python env "Darwin").2).count
        (Event.removeFile (env.tempDir ++ "/python-3.11.9-macos11.pkg")) = 1 := by
  have hbe : cmdPrintOnly e = true := by
    have := darwinBrewPhase_cmdPrintOnly env
    rw [hbrew] at this
    exact this
  have hrc : run_command env (versionCmd (pythonBinFor "Darwin")) "Python 3.11 check failed" 1 =
      (.error er, [.cmd (versionCmd (pythonBinFor "Darwin")) false]) := by
    simp [run_command, runAttempts, pythonBinFor, hfast]
  unfold install_python
  rw [hrc]
  dsimp only
  unfold installPythonFresh
  rw [if_neg (by decide), if_pos rfl]
  rw [hbrew]
  dsimp only
  unfold darwinPkgPhase
  rw [if_pos hdl]
  dsimp only
  split
  case _ er2 e2 heq =>
    have he2 : cmdPrintOnly e2 = true := run_command_snd_shape env _ _ 2 _ e2 heq
    constructor <;>
      simp [List.count_append, List.count_cons, beq_iff_eq, count_download_zero e hbe,
        count_removeFile_zero e hbe, count_download_zero e2 he2, count_removeFile_zero e2 he2]
  case _ x e2 heq =>
    have he2 : cmdPrintOnly e2 = true := run_command_snd_shape env _ _ 2 _ e2 heq
    have he3 : cmdPrintOnly (tryAdvisory env
        (echoPathCmd "/Library/Frameworks/Python.framework/Versions/3.11/bin")
        "Failed to update PATH for Python 3.11" 1
        "Warning: Failed to update PATH in ~/.zshrc, continuing...") = true :=
      tryAdvisory_cmdPrintOnly env _ _ _ 1
    have he4 : cmdPrintOnly (finalVerify env frameworkPythonBin).2 = true :=
      finalVerify_cmdPrintOnly env frameworkPythonBin
    constructor <;>
      simp [List.count_append, List.count_cons, beq_iff_eq, count_download_zero e hbe,
        count_removeFile_zero e hbe, count_download_zero e2 he2, count_removeFile_zero e2 he2,
        count_download_zero _ he3, count_removeFile_zero _ he3,
        count_download_zero _ he4, count_removeFile_zero _ he4]

/-- Witness for C3 in a world where every probe of the Homebrew Python
binary fails: the package fallback runs once and the package is removed
once. -/
theorem claim3_pkg_fallback_witness :
    ((install_python envNoPy "Darwin").2).count
        (Event.download pythonPkgUrl ("/tmp/t" ++ "/python-3.11.9-macos11.pkg")) = 1 ∧
    ((install_python envNoPy "Darwin").2).count
        (Event.removeFile ("/tmp/t" ++ "/python-3.11.9-macos11.pkg")) = 1 :=
  claim3_pkg_fallback envNoPy ⟨1, "", ""⟩ (darwinBrewPhase envNoPy).2 rfl rfl rfl
